import Mathlib

/-!
# s390x ignition staging and guestfish injection

A shallow embedding of `pkg/cloud/libvirt/client/s390_ignition.go`.

Conventions of the embedding

* A Go `error` is its message: `Option String`, `none` being `nil`.
* A Go `string` is a Lean `String` (the embedding covers valid UTF-8 text).
* A nil-able slice is `Option (List _)`, `none` being `nil`.
* A nil-able pointer inside the domain description is an `Option`; a nil
  dereference or an out-of-range index is the outcome `panicked`.
* External processes, the host file system, the secret store and the storage
  backend are oracles: records of functions giving the outcome of every call.
-/

namespace S390Ignition

/-! ## Commands -/

/-- The fields of Go's `exec.Cmd` that the source reads or writes. -/
structure Cmd where
  Path : String
  Args : List String
  Env : Option (List String)
  deriving DecidableEq, Repr

/-- Go's `filepath.Base` on a Unix host: the last element of a path, after
dropping trailing slashes; `.` for the empty path and `/` for a path of slashes
only. -/
def Base (path : String) : String :=
  if path = "" then "."
  else
    let stripped := path.data.reverse.dropWhile (fun c => c = '/')
    let last := (stripped.takeWhile (fun c => c ≠ '/')).reverse
    if last = [] then "/" else String.mk last

/-- The package variable `execCommand`, bound to `exec.Command`. The command
name is stored as `Args[0]` and the environment is nil. `Path` is the name,
replaced, for a name without a directory part, by what `exec.LookPath` finds
for it; `lookPath name` is that path, `none` when `LookPath` finds nothing. -/
def execCommand (lookPath : String → Option String) (name : String) (arg : List String) : Cmd :=
  let cmd : Cmd := { Path := name, Args := name :: arg, Env := none }
  if Base name = name then
    match lookPath name with
    | some lp => { cmd with Path := lp }
    | none => cmd
  else cmd

/-- Go's `append` on a possibly nil slice. -/
def appendSlice (s : Option (List String)) (xs : List String) : Option (List String) :=
  some (s.getD [] ++ xs)

/-- The function `genCmd`. -/
def genCmd (lookPath : String → Option String) (runAsRoot : Bool) (env : Option (List String))
    (args : List String) : Cmd :=
  let executable := "guestfish"
  let newArgs : List String := []
  let (executable, newArgs) :=
    if runAsRoot then
      let newArgs := newArgs ++ ["--preserve-env", executable]
      let newArgs := newArgs ++ args
      ("sudo", newArgs)
    else
      (executable, args)
  let cmd := execCommand lookPath executable newArgs
  match env with
  | some e => if e.length > 0 then { cmd with Env := appendSlice cmd.Env e } else cmd
  | none => cmd

/-- The environment a command built by `genCmd` carries. -/
def envOf (env : Option (List String)) : Option (List String) :=
  match env with
  | some (e :: es) => some (e :: es)
  | _ => none

/-! ## Strings -/

/-- Go's `strings.Split` for a separator of one character, on a list of
characters: the pieces between the occurrences of `sep`, in order. -/
def splitChars (sep : Char) : List Char → List (List Char)
  | [] => [[]]
  | c :: cs =>
    if c = sep then [] :: splitChars sep cs
    else
      match splitChars sep cs with
      | [] => [[c]]
      | seg :: segs => (c :: seg) :: segs

/-- Go's `strings.Split(s, sep)` for a separator of one character, which is
how the source calls it (`";"` and `"="`). -/
def Split (s : String) (sep : Char) : List String :=
  (splitChars sep s.data).map String.mk

/-- Go's `unicode.IsSpace`. -/
def isSpace (c : Char) : Bool :=
  c = '\t' || c = '\n' || c = Char.ofNat 0x0B || c = Char.ofNat 0x0C || c = '\r' || c = ' ' ||
  c = Char.ofNat 0x85 || c = Char.ofNat 0xA0 || c = Char.ofNat 0x1680 ||
  (0x2000 ≤ c.toNat && c.toNat ≤ 0x200A) ||
  c = Char.ofNat 0x2028 || c = Char.ofNat 0x2029 || c = Char.ofNat 0x202F ||
  c = Char.ofNat 0x205F || c = Char.ofNat 0x3000

/-- Go's `strings.TrimSpace`: leading and trailing white space removed. -/
def TrimSpace (s : String) : String :=
  String.mk ((((s.data.dropWhile isSpace).reverse).dropWhile isSpace).reverse)

/-- Go's `strings.Join`. -/
def Join (elems : List String) (sep : String) : String :=
  sep.intercalate elems

/-- The message of `errors.Wrapf(err, format, ...)` from `github.com/pkg/errors`:
the formatted text, a colon and a blank, then the message of the cause. -/
def Wrapf (err : String) (msg : String) : String :=
  msg ++ ": " ++ err

/-! ## The domain description -/

structure DomainDiskSourceFile where
  File : String
  deriving DecidableEq, Repr

structure DomainDiskSource where
  File : Option DomainDiskSourceFile
  deriving DecidableEq, Repr

structure DomainDiskTarget where
  Dev : String
  Bus : String
  deriving DecidableEq, Repr

structure DomainDiskDriver where
  Name : String
  Type_ : String
  deriving DecidableEq, Repr

/-- The fields of `libvirtxml.DomainDisk` that the source touches. -/
structure DomainDisk where
  Device : String
  Driver : Option DomainDiskDriver
  Source : Option DomainDiskSource
  Target : Option DomainDiskTarget
  deriving DecidableEq, Repr

structure DomainDeviceList where
  Disks : List DomainDisk
  deriving DecidableEq, Repr

/-- The fields of `libvirtxml.Domain` that the source touches. -/
structure Domain where
  Devices : Option DomainDeviceList
  deriving DecidableEq, Repr

/-- The expression `domainDef.Devices.Disks[0].Source.File.File`; `none` when
evaluating it panics (a nil pointer on the way, or no disk at all). -/
def firstDiskFile (domainDef : Domain) : Option String :=
  match domainDef.Devices with
  | none => none
  | some devices =>
    match devices.Disks with
    | [] => none
    | disk :: _ =>
      match disk.Source with
      | none => none
      | some source =>
        match source.File with
        | none => none
        | some file => some file.File

/-! ## Running guestfish -/

/-- One call of guestfish as the injector sees it: the command, and the
output and error that `startCmd` or `execCmd` returned for it. -/
structure Event where
  cmd : Cmd
  out : String
  err : Option String
  deriving DecidableEq, Repr

/-- What can happen to the command started by `startCmd`. -/
inductive StartReply where
  | pipeFailed (err : String)
  | startFailed (err : String)
  | readFailed (err : String)
  | output (out : String)
  deriving DecidableEq, Repr

/-- A behaviour of the host and the external tool: where `exec.LookPath`
finds a command, what starting the listener gives, and what `CombinedOutput`
gives for a command, which may depend on every call made before. -/
structure Tool where
  LookPath : String → Option String
  start : Cmd → StartReply
  combinedOutput : List Event → Cmd → String × Option String

/-- The function `execCmd`. -/
def execCmd (t : Tool) (hist : List Event) (runAsRoot : Bool) (env : Option (List String))
    (args : List String) : Event :=
  let cmd := genCmd t.LookPath runAsRoot env args
  let (cmdOut, err) := t.combinedOutput hist cmd
  let err := err.map (fun e => Wrapf e ("error running command '" ++ Join cmd.Args " " ++ "'"))
  { cmd := cmd, out := cmdOut, err := err }

/-- The function `startCmd`, with `readOutput` inlined. -/
def startCmd (t : Tool) (runAsRoot : Bool) (env : Option (List String))
    (args : List String) : Event :=
  let cmd := genCmd t.LookPath runAsRoot env args
  match t.start cmd with
  | .pipeFailed e =>
    { cmd := cmd, out := "",
      err := some (Wrapf e ("error getting stdout pipe for command '" ++ Join cmd.Args " " ++ "'")) }
  | .startFailed e =>
    { cmd := cmd, out := "",
      err := some (Wrapf e ("error starting command '" ++ Join cmd.Args " " ++ "'")) }
  | .readFailed e => { cmd := cmd, out := "", err := some e }
  | .output outMsg => { cmd := cmd, out := outMsg, err := none }

/-- How a call ends: with a panic, or by returning an `error` (`none` is nil). -/
inductive Outcome where
  | panicked
  | returned (err : Option String)
  deriving DecidableEq, Repr

/-- A run of the injector: the calls of guestfish it made, in order, and how
it ended. -/
structure Run where
  trace : List Event
  outcome : Outcome
  deriving DecidableEq, Repr

/-- The function `injectIgnitionByGuestfish`. -/
def injectIgnitionByGuestfish (t : Tool) (domainDef : Domain) (ignitionFile : String) : Run :=
  let runAsRoot := true
  match firstDiskFile domainDef with
  | none => { trace := [], outcome := .panicked }
  | some file =>
    let e1 := startCmd t runAsRoot none ["--listen", "-a", file]
    let output := e1.out
    if e1.err ≠ none then { trace := [e1], outcome := .returned e1.err } else
    let strArray := Split output ';'
    if strArray.length ≠ 2 then
      { trace := [e1],
        outcome := .returned (some ("invalid output when starting guestfish: " ++ output)) }
    else
    let strArray1 := Split (strArray.getD 0 "") '='
    if strArray1.length ≠ 2 then
      { trace := [e1],
        outcome := .returned (some ("failed to get the guestfish PID from " ++ output)) }
    else
    let env : Option (List String) := some [strArray.getD 0 ""]
    let e2 := execCmd t [e1] runAsRoot env ["--remote", "--", "run"]
    if e2.err ≠ none then { trace := [e1, e2], outcome := .returned e2.err } else
    let e3 := execCmd t [e1, e2] runAsRoot env ["--remote", "--", "findfs-label", "boot"]
    let output := e3.out
    if e3.err ≠ none then { trace := [e1, e2, e3], outcome := .returned e3.err } else
    let bootDisk := TrimSpace output
    if bootDisk.length = 0 then
      { trace := [e1, e2, e3], outcome := .returned (some "failed to get the boot filesystem") }
    else
    let e4 := execCmd t [e1, e2, e3] runAsRoot env ["--remote", "--", "mount", bootDisk, "/"]
    if e4.err ≠ none then { trace := [e1, e2, e3, e4], outcome := .returned e4.err } else
    let e5 := execCmd t [e1, e2, e3, e4] runAsRoot env
      ["--remote", "--", "upload", ignitionFile, "/ignition/config.ign"]
    if e5.err ≠ none then { trace := [e1, e2, e3, e4, e5], outcome := .returned e5.err } else
    let e6 := execCmd t [e1, e2, e3, e4, e5] runAsRoot env ["--remote", "--", "umount-all"]
    if e6.err ≠ none then { trace := [e1, e2, e3, e4, e5, e6], outcome := .returned e6.err } else
    let e7 := execCmd t [e1, e2, e3, e4, e5, e6] runAsRoot env ["--remote", "--", "exit"]
    if e7.err ≠ none then
      { trace := [e1, e2, e3, e4, e5, e6, e7], outcome := .returned e7.err }
    else
      { trace := [e1, e2, e3, e4, e5, e6, e7], outcome := .returned none }

/-! ## Observations on a run -/

/-- The argument vector `genCmd` builds for a call as root. -/
def sudoArgs (args : List String) : List String :=
  "sudo" :: "--preserve-env" :: "guestfish" :: args

/-- The seven guestfish calls of an injection, as argument lists. -/
def fixedSequence (d f b : String) : List (List String) :=
  [["--listen", "-a", d],
   ["--remote", "--", "run"],
   ["--remote", "--", "findfs-label", "boot"],
   ["--remote", "--", "mount", b, "/"],
   ["--remote", "--", "upload", f, "/ignition/config.ign"],
   ["--remote", "--", "umount-all"],
   ["--remote", "--", "exit"]]

/-- The argument vectors of the calls of a run, in order. -/
def issuedArgs (r : Run) : List (List String) :=
  r.trace.map (fun e => e.cmd.Args)

/-- The trimmed reply of the third call of a run (the `findfs-label` call). -/
def bootReply (r : Run) : String :=
  match r.trace.get? 2 with
  | some e => TrimSpace e.out
  | none => ""

/-- The output of the first call of a run (the listener call). -/
def startupOutput (r : Run) : String :=
  match r.trace.get? 0 with
  | some e => e.out
  | none => ""

/-! ## The calls of a run, by name -/

/-- The listener call of an injection into the disk image `d`. -/
@[irreducible] def listenCall (t : Tool) (d : String) : Event :=
  startCmd t true none ["--listen", "-a", d]

/-- The environment of the session: the first segment of the listener's
startup output. -/
def sessionEnv (t : Tool) (d : String) : Option (List String) :=
  some [(Split (listenCall t d).out ';').getD 0 ""]

/-- The `run` call. -/
@[irreducible] def runCall (t : Tool) (d : String) : Event :=
  execCmd t [listenCall t d] true (sessionEnv t d) ["--remote", "--", "run"]

/-- The `findfs-label boot` call. -/
@[irreducible] def findfsCall (t : Tool) (d : String) : Event :=
  execCmd t [listenCall t d, runCall t d] true (sessionEnv t d)
    ["--remote", "--", "findfs-label", "boot"]

/-- The `mount` call. -/
@[irreducible] def mountCall (t : Tool) (d : String) : Event :=
  execCmd t [listenCall t d, runCall t d, findfsCall t d] true (sessionEnv t d)
    ["--remote", "--", "mount", TrimSpace (findfsCall t d).out, "/"]

/-- The `upload` call. -/
@[irreducible] def uploadCall (t : Tool) (d f : String) : Event :=
  execCmd t [listenCall t d, runCall t d, findfsCall t d, mountCall t d] true (sessionEnv t d)
    ["--remote", "--", "upload", f, "/ignition/config.ign"]

/-- The `umount-all` call. -/
@[irreducible] def umountCall (t : Tool) (d f : String) : Event :=
  execCmd t [listenCall t d, runCall t d, findfsCall t d, mountCall t d, uploadCall t d f]
    true (sessionEnv t d) ["--remote", "--", "umount-all"]

/-- The `exit` call. -/
@[irreducible] def exitCall (t : Tool) (d f : String) : Event :=
  execCmd t
    [listenCall t d, runCall t d, findfsCall t d, mountCall t d, uploadCall t d f,
      umountCall t d f]
    true (sessionEnv t d) ["--remote", "--", "exit"]

/-- Whether a call is the remote command `verb`: the arguments after
`sudo --preserve-env guestfish` start with `--remote -- verb`. -/
def isRemote (verb : String) (e : Event) : Bool :=
  (e.cmd.Args.drop 3).take 3 == ["--remote", "--", verb]

/-! ## The config drive -/

/-- The libvirt storage volume handle, as far as the source uses it: the
outcome of `GetPath`. -/
structure StorageVol where
  GetPath : Except String String

/-- The libvirt connection, as far as the source uses it: the outcome of
`LookupStorageVolByKey` for every key. -/
structure Connect where
  LookupStorageVolByKey : String → Except String StorageVol

/-- The function `newDiskForConfigDrive`. -/
def newDiskForConfigDrive (virConn : Connect) (volumeKey : String) :
    DomainDisk × Option String :=
  let disk : DomainDisk :=
    { Device := "cdrom"
      Target := some { Dev := "vdb", Bus := "scsi" }
      Driver := some { Name := "qemu", Type_ := "raw" }
      Source := none }
  match virConn.LookupStorageVolByKey volumeKey with
  | .error err => (disk, some ("Can't retrieve volume " ++ volumeKey ++ ": " ++ err))
  | .ok diskVolume =>
    match diskVolume.GetPath with
    | .error err => (disk, some ("Error retrieving volume file: " ++ err))
    | .ok diskVolumeFile =>
      ({ disk with Source := some { File := some { File := diskVolumeFile } } }, none)

/-- What running an external process to completion gives: what the process
wrote to its standard output and standard error, and the error of `cmd.Run`. -/
structure ProcessRun where
  output : String
  err : Option String

/-- The image object returned by `newImage`, as far as the source uses it: the
outcome of `size`. -/
structure Image where
  size : Except String Nat

/-- The fields of `libvirtxml.StorageVolume` that the source sets. -/
structure StorageVolume where
  Name : String
  CapacityUnit : String
  CapacityValue : Nat
  TargetFormatType : String
  deriving DecidableEq, Repr

/-- The type `defIgnition`, as far as the source uses it. -/
structure defIgnition where
  Name : String
  PoolName : String
  Content : String
  deriving DecidableEq, Repr

/-- The type `libvirtClient`, as far as the source uses it. -/
structure libvirtClient where
  connection : Connect
  poolName : String

/-- Everything the config-drive path calls that lies outside the source file:
the host file system, the ISO-authoring process, and the helpers of the
package declared in other files (`newIgnitionDef`, `createFile`, `newImage`,
`newDefVolume`, `uploadVolume`). Each field gives the outcome of the call. -/
structure Host where
  LookPath : String → Option String
  MkdirAll : String → Option String
  Open : String → Option String
  Create : String → Option String
  Copy : String → String → Option String
  Run : Cmd → ProcessRun
  RemoveAll : String → Option String
  newIgnitionDef : defIgnition
  createFile : defIgnition → Except String String
  newImage : String → Except String Image
  newDefVolume : String → StorageVolume
  uploadVolume : String → libvirtClient → StorageVolume → Image → String × Option String

/-- The function `createIgnitionISO`. -/
def createIgnitionISO (h : Host) (ignName : String) (ignPath : String) :
    String × Option String :=
  let _ := ignName -- only logged
  match h.MkdirAll "/tmp/new-drive/openstack/latest" with
  | some err => ("", some ("Error mkdir for /tmp/new-drive/openstack/latest : " ++ err))
  | none =>
    match h.Open ignPath with
    | some err => ("", some ("Error get the ignition content : " ++ err))
    | none =>
      match h.Create "/tmp/new-drive/openstack/latest/user_data" with
      | some err => ("", some ("Error create the file for ignition : " ++ err))
      | none =>
        match h.Copy "/tmp/new-drive/openstack/latest/user_data" ignPath with
        | some err =>
          ("", some ("Error copy the ignitio content to newDestinationPath : " ++ err))
        | none =>
          let cmd := execCommand h.LookPath "genisoimage"
            ["-o", ignPath, "-ldots", "-allow-lowercase", "-allow-multidot", "-l", "-quiet",
             "-J", "-r", "-V", "config-2", "/tmp/new-drive/"]
          match (h.Run cmd).err with
          | some err =>
            ("", some ("Error while starting the creation of ignition's ISO image: " ++ err))
          | none =>
            match h.RemoveAll "/tmp/new-drive/openstack" with
            | some err =>
              ("", some ("Error remove the file /tmp/new-drive/openstack: " ++ err))
            | none => (ignPath, none)

/-- The method `createAndUploadIso`. The deferred removal of the temporary
file only logs its error and does not change what is returned. -/
def createAndUploadIso (h : Host) (ign : defIgnition) (client : libvirtClient) :
    String × Option String :=
  match h.createFile ign with
  | .error err => ("", some err)
  | .ok ignFile =>
    match createIgnitionISO h ign.Name ignFile with
    | (_, some err) => ("", some ("Error generate iso file: " ++ err))
    | (isoVolumeFile, none) =>
      match h.newImage isoVolumeFile with
      | .error err => ("", some err)
      | .ok img =>
        match img.size with
        | .error err => ("", some err)
        | .ok size =>
          let volumeDef := h.newDefVolume ign.Name
          let volumeDef :=
            { volumeDef with CapacityUnit := "B", CapacityValue := size, TargetFormatType := "raw" }
          h.uploadVolume ign.PoolName client volumeDef img

/-- The type `providerconfigv1.Ignition`, as far as the source uses it. -/
structure Ignition where
  UserDataSecret : String
  deriving DecidableEq, Repr

/-- A Kubernetes secret: its `Data` map, as a lookup. -/
structure Secret where
  Data : String → Option String

/-- The Kubernetes client, as far as the source uses it: the outcome of
`CoreV1().Secrets(namespace).Get(name, ...)`. -/
structure KubeClient where
  GetSecret : String → String → Except String Secret

/-- The function `setIgnitionForS390X`: the domain description after the call
and how the call ended. -/
def setIgnitionForS390X (h : Host) (domainDef : Domain) (client : libvirtClient)
    (ignition : Ignition) (kubeClient : KubeClient) (machineNamespace volumeName : String) :
    Domain × Outcome :=
  let ignitionDef := h.newIgnitionDef
  if ignition.UserDataSecret = "" then
    (domainDef, .returned (some "ignition.userDataSecret not set"))
  else
    match kubeClient.GetSecret machineNamespace ignition.UserDataSecret with
    | .error err =>
      (domainDef, .returned (some ("can not retrieve user data secret '" ++ machineNamespace ++
        "/" ++ ignition.UserDataSecret ++ "' when constructing cloud init volume: " ++ err)))
    | .ok secret =>
      match secret.Data "userData" with
      | none =>
        (domainDef, .returned (some ("can not retrieve user data secret '" ++ machineNamespace ++
          "/" ++ ignition.UserDataSecret ++
          "' when constructing cloud init volume: key 'userData' not found in the secret")))
      | some userDataSecret =>
        let ignitionDef :=
          { ignitionDef with
            Name := volumeName, PoolName := client.poolName, Content := userDataSecret }
        match createAndUploadIso h ignitionDef client with
        | (_, some err) =>
          (domainDef, .returned (some ("Error create and upload iso file: " ++ err)))
        | (ignitionVolumeName, none) =>
          match newDiskForConfigDrive client.connection ignitionVolumeName with
          | (_, some err) => (domainDef, .returned (some err))
          | (disk, none) =>
            match domainDef.Devices with
            | none => (domainDef, .panicked)
            | some devices =>
              ({ domainDef with Devices := some { devices with Disks := devices.Disks ++ [disk] } },
                .returned none)

/-- The command line `createIgnitionISO` runs. -/
def genisoimageCmd (lookPath : String → Option String) (ignPath : String) : Cmd :=
  execCommand lookPath "genisoimage"
    ["-o", ignPath, "-ldots", "-allow-lowercase", "-allow-multidot", "-l", "-quiet",
     "-J", "-r", "-V", "config-2", "/tmp/new-drive/"]

/-! ## Example inputs -/

/-- A disk backed by an image file. -/
def exampleDisk : DomainDisk :=
  { Device := "disk"
    Driver := none
    Source := some ⟨some ⟨"/var/lib/libvirt/images/worker.qcow2"⟩⟩
    Target := none }

/-- A guest whose first disk is backed by an image file. -/
def exampleDomain : Domain :=
  { Devices := some ⟨[exampleDisk]⟩ }

/-- Every call succeeds; the boot file system is `/dev/sda1`. -/
def toolAllSucceed : Tool :=
  { LookPath := fun name => some ("/usr/bin/" ++ name),
    start := fun _ => .output "GUESTFISH_PID=4513; export GUESTFISH_PID",
    combinedOutput := fun hist _ => if hist.length = 2 then ("/dev/sda1\n", none) else ("", none) }

/-- The mount command (the fourth call) exits non-zero, everything else
succeeds. -/
def toolMountFails : Tool :=
  { LookPath := fun name => some ("/usr/bin/" ++ name),
    start := fun _ => .output "GUESTFISH_PID=4513; export GUESTFISH_PID",
    combinedOutput := fun hist _ =>
      if hist.length = 2 then ("/dev/sda1\n", none)
      else if hist.length = 3 then ("libguestfs: error: mount failed\n", some "exit status 1")
      else ("", none) }

/-- The listener prints a startup line without a semicolon. -/
def toolNoSemicolon : Tool :=
  { LookPath := fun name => some ("/usr/bin/" ++ name),
    start := fun _ => .output "GUESTFISH_PID=4513",
    combinedOutput := fun _ _ => ("", none) }

/-- The `findfs-label` reply is a bare newline. -/
def toolBlankBoot : Tool :=
  { LookPath := fun name => some ("/usr/bin/" ++ name),
    start := fun _ => .output "GUESTFISH_PID=4513; export GUESTFISH_PID",
    combinedOutput := fun hist _ => if hist.length = 2 then ("\n", none) else ("", none) }

/-- The exit call of a session with the environment `GUESTFISH_PID=4513`. -/
def exampleExitEvent : Event :=
  { cmd := { Path := "/usr/bin/sudo", Args := sudoArgs ["--remote", "--", "exit"],
             Env := some ["GUESTFISH_PID=4513"] },
    out := "", err := none }

/-- The findfs-label call of `toolBlankBoot`. -/
def exampleBlankFindfsEvent : Event :=
  { cmd := { Path := "/usr/bin/sudo",
             Args := sudoArgs ["--remote", "--", "findfs-label", "boot"],
             Env := some ["GUESTFISH_PID=4513"] },
    out := "\n", err := none }

/-- A storage backend that knows one volume, `key-123`, stored at
`/var/lib/pool/vol.iso`. -/
def exampleBackend : Connect :=
  { LookupStorageVolByKey := fun k =>
      if k = "key-123" then .ok { GetPath := .ok "/var/lib/pool/vol.iso" }
      else .error "Storage volume not found" }

/-- A host on which every step of the config-drive path succeeds. -/
def exampleHost : Host :=
  { LookPath := fun name => some ("/usr/bin/" ++ name)
    MkdirAll := fun _ => none
    Open := fun _ => none
    Create := fun _ => none
    Copy := fun _ _ => none
    Run := fun _ => { output := "", err := none }
    RemoveAll := fun _ => none
    newIgnitionDef := { Name := "", PoolName := "", Content := "" }
    createFile := fun _ => .ok "/tmp/ignition-tmp"
    newImage := fun _ => .ok { size := .ok 376832 }
    newDefVolume := fun name =>
      { Name := name, CapacityUnit := "bytes", CapacityValue := 1, TargetFormatType := "qcow2" }
    uploadVolume := fun _ _ vol _ => ("/var/lib/libvirt/images/" ++ vol.Name, none) }

/-- A host on which the ISO-authoring tool prints a message and exits with
status 1. -/
def hostIsoToolFails : Host :=
  { exampleHost with
    Run := fun _ => { output := "genisoimage: permission denied\n", err := some "exit status 1" } }

/-- A client whose storage backend stores every volume at the path equal to
its key. -/
def exampleClient : libvirtClient :=
  { connection := { LookupStorageVolByKey := fun k => .ok { GetPath := .ok k } }
    poolName := "default" }

/-- A secret store in which every secret holds the key `userData`. -/
def exampleKubeClient : KubeClient :=
  { GetSecret := fun _ _ =>
      .ok { Data := fun k => if k = "userData" then some "ignition-config" else none } }

/-! ## Strings: what the model of `Split` and `TrimSpace` computes -/

theorem splitChars_ne_nil (sep : Char) (l : List Char) : splitChars sep l ≠ [] := by
  cases l with
  | nil => simp [splitChars]
  | cons c cs =>
    unfold splitChars
    split
    · simp
    · split <;> simp

/-- Splitting yields one more piece than there are separators. -/
theorem splitChars_length (sep : Char) (l : List Char) :
    (splitChars sep l).length = l.count sep + 1 := by
  induction l with
  | nil => simp [splitChars]
  | cons c cs ih =>
    unfold splitChars
    by_cases hc : c = sep
    · simp [hc, ih]
    · have hne := splitChars_ne_nil sep cs
      rw [if_neg hc]
      cases hs : splitChars sep cs with
      | nil => exact absurd hs hne
      | cons seg segs =>
        rw [hs] at ih
        have : (c == sep) = false := by simpa using hc
        simp [List.count_cons, this] at ih ⊢
        omega

/-- Joining the pieces with the separator gives the text back. -/
theorem splitChars_join (sep : Char) (l : List Char) :
    List.intercalate [sep] (splitChars sep l) = l := by
  induction l with
  | nil => simp [splitChars, List.intercalate]
  | cons c cs ih =>
    unfold splitChars
    by_cases hc : c = sep
    · rw [if_pos hc]
      have hne := splitChars_ne_nil sep cs
      cases hs : splitChars sep cs with
      | nil => exact absurd hs hne
      | cons seg segs =>
        rw [hs] at ih
        simp [List.intercalate, List.intersperse] at ih ⊢
        exact ⟨hc.symm, ih⟩
    · rw [if_neg hc]
      have hne := splitChars_ne_nil sep cs
      cases hs : splitChars sep cs with
      | nil => exact absurd hs hne
      | cons seg segs =>
        rw [hs] at ih
        cases segs with
        | nil => simpa [List.intercalate, List.intersperse] using ih
        | cons s2 rest => simpa [List.intercalate, List.intersperse] using ih

/-- No piece contains the separator. -/
theorem splitChars_no_sep (sep : Char) (l : List Char) :
    ∀ seg ∈ splitChars sep l, sep ∉ seg := by
  induction l with
  | nil => simp [splitChars]
  | cons c cs ih =>
    unfold splitChars
    by_cases hc : c = sep
    · rw [if_pos hc]
      intro seg hseg
      rcases List.mem_cons.mp hseg with h | h
      · simp [h]
      · exact ih seg h
    · rw [if_neg hc]
      have hne := splitChars_ne_nil sep cs
      cases hs : splitChars sep cs with
      | nil => exact absurd hs hne
      | cons seg segs =>
        rw [hs] at ih
        intro x hx
        rcases List.mem_cons.mp hx with h | h
        · subst h
          intro hmem
          rcases List.mem_cons.mp hmem with h' | h'
          · exact hc h'.symm
          · exact ih seg (List.mem_cons_self _ _) h'
        · exact ih x (List.mem_cons_of_mem _ h)

theorem dropWhile_all (p : Char → Bool) (l : List Char) :
    (∀ x ∈ l.dropWhile p, p x = true) ↔ ∀ x ∈ l, p x = true := by
  induction l with
  | nil => simp
  | cons a l ih =>
    by_cases ha : p a = true
    · simp [List.dropWhile_cons, ha, ih]
    · simp [List.dropWhile_cons, ha]

/-- Trimming gives the empty string exactly for texts of white space only. -/
theorem TrimSpace_eq_empty_iff (s : String) :
    TrimSpace s = "" ↔ ∀ c ∈ s.data, isSpace c = true := by
  have h1 : TrimSpace s = "" ↔
      (((s.data.dropWhile isSpace).reverse).dropWhile isSpace).reverse = [] := by
    constructor
    · intro h
      have := congrArg String.data h
      simpa [TrimSpace] using this
    · intro h
      apply String.ext
      simpa [TrimSpace] using h
  rw [h1, List.reverse_eq_nil_iff, List.dropWhile_eq_nil_iff]
  simp only [List.mem_reverse]
  exact dropWhile_all isSpace s.data

/-- Trimming leaves a text without white space at either end as it is. -/
theorem TrimSpace_data (s : String) :
    ∃ pre post, s.data = pre ++ (TrimSpace s).data ++ post ∧
      (∀ c ∈ pre, isSpace c = true) ∧ (∀ c ∈ post, isSpace c = true) := by
  refine ⟨s.data.takeWhile isSpace,
    (((s.data.dropWhile isSpace).reverse).takeWhile isSpace).reverse, ?_, ?_, ?_⟩
  · have h1 := (List.takeWhile_append_dropWhile isSpace s.data).symm
    have h2 := congrArg List.reverse
      (List.takeWhile_append_dropWhile isSpace (s.data.dropWhile isSpace).reverse).symm
    rw [List.reverse_reverse, List.reverse_append] at h2
    rw [List.append_assoc]
    simp only [TrimSpace]
    rw [← h2]
    exact h1
  · intro c hc
    exact List.mem_takeWhile_imp hc
  · intro c hc
    exact List.mem_takeWhile_imp (List.mem_reverse.mp hc)

/-! ## Commands and calls -/

theorem Base_sudo : Base "sudo" = "sudo" := by decide

theorem Base_guestfish : Base "guestfish" = "guestfish" := by decide

theorem Base_genisoimage : Base "genisoimage" = "genisoimage" := by decide

theorem genCmd_root (lookPath : String → Option String) (env : Option (List String))
    (args : List String) :
    genCmd lookPath true env args =
      { Path := (lookPath "sudo").getD "sudo",
        Args := "sudo" :: "--preserve-env" :: "guestfish" :: args,
        Env := envOf env } := by
  rcases env with _ | ⟨_ | ⟨e, es⟩⟩ <;> cases hl : lookPath "sudo" <;>
    simp [genCmd, execCommand, envOf, appendSlice, Base_sudo, hl]

theorem genCmd_plain (lookPath : String → Option String) (env : Option (List String))
    (args : List String) :
    genCmd lookPath false env args =
      { Path := (lookPath "guestfish").getD "guestfish", Args := "guestfish" :: args,
        Env := envOf env } := by
  rcases env with _ | ⟨_ | ⟨e, es⟩⟩ <;> cases hl : lookPath "guestfish" <;>
    simp [genCmd, execCommand, envOf, appendSlice, Base_guestfish, hl]

theorem execCmd_cmd (t : Tool) (hist : List Event) (env : Option (List String))
    (args : List String) :
    (execCmd t hist true env args).cmd = genCmd t.LookPath true env args := by
  simp [execCmd]

theorem startCmd_cmd (t : Tool) (env : Option (List String)) (args : List String) :
    (startCmd t true env args).cmd = genCmd t.LookPath true env args := by
  simp only [startCmd]
  split <;> rfl

theorem inject_eq (t : Tool) (domainDef : Domain) (d f : String)
    (hd : firstDiskFile domainDef = some d) :
    injectIgnitionByGuestfish t domainDef f =
      if (listenCall t d).err ≠ none then
        { trace := [listenCall t d], outcome := .returned (listenCall t d).err }
      else if (Split (listenCall t d).out ';').length ≠ 2 then
        { trace := [listenCall t d],
          outcome := .returned
            (some ("invalid output when starting guestfish: " ++ (listenCall t d).out)) }
      else if (Split ((Split (listenCall t d).out ';').getD 0 "") '=').length ≠ 2 then
        { trace := [listenCall t d],
          outcome := .returned
            (some ("failed to get the guestfish PID from " ++ (listenCall t d).out)) }
      else if (runCall t d).err ≠ none then
        { trace := [listenCall t d, runCall t d], outcome := .returned (runCall t d).err }
      else if (findfsCall t d).err ≠ none then
        { trace := [listenCall t d, runCall t d, findfsCall t d],
          outcome := .returned (findfsCall t d).err }
      else if (TrimSpace (findfsCall t d).out).length = 0 then
        { trace := [listenCall t d, runCall t d, findfsCall t d],
          outcome := .returned (some "failed to get the boot filesystem") }
      else if (mountCall t d).err ≠ none then
        { trace := [listenCall t d, runCall t d, findfsCall t d, mountCall t d],
          outcome := .returned (mountCall t d).err }
      else if (uploadCall t d f).err ≠ none then
        { trace := [listenCall t d, runCall t d, findfsCall t d, mountCall t d, uploadCall t d f],
          outcome := .returned (uploadCall t d f).err }
      else if (umountCall t d f).err ≠ none then
        { trace := [listenCall t d, runCall t d, findfsCall t d, mountCall t d, uploadCall t d f,
            umountCall t d f],
          outcome := .returned (umountCall t d f).err }
      else if (exitCall t d f).err ≠ none then
        { trace := [listenCall t d, runCall t d, findfsCall t d, mountCall t d, uploadCall t d f,
            umountCall t d f, exitCall t d f],
          outcome := .returned (exitCall t d f).err }
      else
        { trace := [listenCall t d, runCall t d, findfsCall t d, mountCall t d, uploadCall t d f,
            umountCall t d f, exitCall t d f],
          outcome := .returned none } := by
  unfold injectIgnitionByGuestfish
  rw [hd]
  with_unfolding_all rfl

/-- Case analysis on a run of the injector that got past reading the disk
image path: the eleven ways it can end. -/
theorem inject_cases {P : Run → Prop} (t : Tool) (domainDef : Domain) (d f : String)
    (hd : firstDiskFile domainDef = some d) (r : Run)
    (hr : injectIgnitionByGuestfish t domainDef f = r)
    (hListen : (listenCall t d).err ≠ none →
      P { trace := [listenCall t d], outcome := .returned (listenCall t d).err })
    (hSemi : (listenCall t d).err = none → (Split (listenCall t d).out ';').length ≠ 2 →
      P { trace := [listenCall t d],
          outcome := .returned
            (some ("invalid output when starting guestfish: " ++ (listenCall t d).out)) })
    (hEq : (listenCall t d).err = none → (Split (listenCall t d).out ';').length = 2 →
      (Split ((Split (listenCall t d).out ';').getD 0 "") '=').length ≠ 2 →
      P { trace := [listenCall t d],
          outcome := .returned
            (some ("failed to get the guestfish PID from " ++ (listenCall t d).out)) })
    (hRun : (listenCall t d).err = none → (Split (listenCall t d).out ';').length = 2 →
      (Split ((Split (listenCall t d).out ';').getD 0 "") '=').length = 2 →
      (runCall t d).err ≠ none →
      P { trace := [listenCall t d, runCall t d], outcome := .returned (runCall t d).err })
    (hFindfs : (listenCall t d).err = none → (Split (listenCall t d).out ';').length = 2 →
      (Split ((Split (listenCall t d).out ';').getD 0 "") '=').length = 2 →
      (runCall t d).err = none → (findfsCall t d).err ≠ none →
      P { trace := [listenCall t d, runCall t d, findfsCall t d],
          outcome := .returned (findfsCall t d).err })
    (hBoot : (listenCall t d).err = none → (Split (listenCall t d).out ';').length = 2 →
      (Split ((Split (listenCall t d).out ';').getD 0 "") '=').length = 2 →
      (runCall t d).err = none → (findfsCall t d).err = none →
      (TrimSpace (findfsCall t d).out).length = 0 →
      P { trace := [listenCall t d, runCall t d, findfsCall t d],
          outcome := .returned (some "failed to get the boot filesystem") })
    (hMount : (listenCall t d).err = none → (Split (listenCall t d).out ';').length = 2 →
      (Split ((Split (listenCall t d).out ';').getD 0 "") '=').length = 2 →
      (runCall t d).err = none → (findfsCall t d).err = none →
      (TrimSpace (findfsCall t d).out).length ≠ 0 → (mountCall t d).err ≠ none →
      P { trace := [listenCall t d, runCall t d, findfsCall t d, mountCall t d],
          outcome := .returned (mountCall t d).err })
    (hUpload : (listenCall t d).err = none → (Split (listenCall t d).out ';').length = 2 →
      (Split ((Split (listenCall t d).out ';').getD 0 "") '=').length = 2 →
      (runCall t d).err = none → (findfsCall t d).err = none →
      (TrimSpace (findfsCall t d).out).length ≠ 0 → (mountCall t d).err = none →
      (uploadCall t d f).err ≠ none →
      P { trace := [listenCall t d, runCall t d, findfsCall t d, mountCall t d,
            uploadCall t d f],
          outcome := .returned (uploadCall t d f).err })
    (hUmount : (listenCall t d).err = none → (Split (listenCall t d).out ';').length = 2 →
      (Split ((Split (listenCall t d).out ';').getD 0 "") '=').length = 2 →
      (runCall t d).err = none → (findfsCall t d).err = none →
      (TrimSpace (findfsCall t d).out).length ≠ 0 → (mountCall t d).err = none →
      (uploadCall t d f).err = none → (umountCall t d f).err ≠ none →
      P { trace := [listenCall t d, runCall t d, findfsCall t d, mountCall t d,
            uploadCall t d f, umountCall t d f],
          outcome := .returned (umountCall t d f).err })
    (hExit : (listenCall t d).err = none → (Split (listenCall t d).out ';').length = 2 →
      (Split ((Split (listenCall t d).out ';').getD 0 "") '=').length = 2 →
      (runCall t d).err = none → (findfsCall t d).err = none →
      (TrimSpace (findfsCall t d).out).length ≠ 0 → (mountCall t d).err = none →
      (uploadCall t d f).err = none → (umountCall t d f).err = none →
      (exitCall t d f).err ≠ none →
      P { trace := [listenCall t d, runCall t d, findfsCall t d, mountCall t d,
            uploadCall t d f, umountCall t d f, exitCall t d f],
          outcome := .returned (exitCall t d f).err })
    (hDone : (listenCall t d).err = none → (Split (listenCall t d).out ';').length = 2 →
      (Split ((Split (listenCall t d).out ';').getD 0 "") '=').length = 2 →
      (runCall t d).err = none → (findfsCall t d).err = none →
      (TrimSpace (findfsCall t d).out).length ≠ 0 → (mountCall t d).err = none →
      (uploadCall t d f).err = none → (umountCall t d f).err = none →
      (exitCall t d f).err = none →
      P { trace := [listenCall t d, runCall t d, findfsCall t d, mountCall t d,
            uploadCall t d f, umountCall t d f, exitCall t d f],
          outcome := .returned none }) :
    P r := by
  rw [inject_eq t domainDef d f hd] at hr
  subst hr
  by_cases h1 : (listenCall t d).err = none
  swap
  · rw [if_pos h1]; exact hListen h1
  rw [if_neg (not_not.mpr h1)]
  by_cases h2 : (Split (listenCall t d).out ';').length = 2
  swap
  · rw [if_pos h2]; exact hSemi h1 h2
  rw [if_neg (not_not.mpr h2)]
  by_cases h3 : (Split ((Split (listenCall t d).out ';').getD 0 "") '=').length = 2
  swap
  · rw [if_pos h3]; exact hEq h1 h2 h3
  rw [if_neg (not_not.mpr h3)]
  by_cases h4 : (runCall t d).err = none
  swap
  · rw [if_pos h4]; exact hRun h1 h2 h3 h4
  rw [if_neg (not_not.mpr h4)]
  by_cases h5 : (findfsCall t d).err = none
  swap
  · rw [if_pos h5]; exact hFindfs h1 h2 h3 h4 h5
  rw [if_neg (not_not.mpr h5)]
  by_cases h6 : (TrimSpace (findfsCall t d).out).length = 0
  · rw [if_pos h6]; exact hBoot h1 h2 h3 h4 h5 h6
  rw [if_neg h6]
  by_cases h7 : (mountCall t d).err = none
  swap
  · rw [if_pos h7]; exact hMount h1 h2 h3 h4 h5 h6 h7
  rw [if_neg (not_not.mpr h7)]
  by_cases h8 : (uploadCall t d f).err = none
  swap
  · rw [if_pos h8]; exact hUpload h1 h2 h3 h4 h5 h6 h7 h8
  rw [if_neg (not_not.mpr h8)]
  by_cases h9 : (umountCall t d f).err = none
  swap
  · rw [if_pos h9]; exact hUmount h1 h2 h3 h4 h5 h6 h7 h8 h9
  rw [if_neg (not_not.mpr h9)]
  by_cases h10 : (exitCall t d f).err = none
  swap
  · rw [if_pos h10]; exact hExit h1 h2 h3 h4 h5 h6 h7 h8 h9 h10
  rw [if_neg (not_not.mpr h10)]
  exact hDone h1 h2 h3 h4 h5 h6 h7 h8 h9 h10

theorem sessionEnv_envOf (t : Tool) (d : String) :
    envOf (sessionEnv t d) = sessionEnv t d := rfl

theorem listenCall_cmd (t : Tool) (d : String) :
    (listenCall t d).cmd =
      { Path := (t.LookPath "sudo").getD "sudo", Args := sudoArgs ["--listen", "-a", d], Env := none } := by
  rw [listenCall, startCmd_cmd, genCmd_root]; rfl

theorem runCall_cmd (t : Tool) (d : String) :
    (runCall t d).cmd =
      { Path := (t.LookPath "sudo").getD "sudo", Args := sudoArgs ["--remote", "--", "run"], Env := sessionEnv t d } := by
  rw [runCall, execCmd_cmd, genCmd_root]; rfl

theorem findfsCall_cmd (t : Tool) (d : String) :
    (findfsCall t d).cmd =
      { Path := (t.LookPath "sudo").getD "sudo", Args := sudoArgs ["--remote", "--", "findfs-label", "boot"],
        Env := sessionEnv t d } := by
  rw [findfsCall, execCmd_cmd, genCmd_root]; rfl

theorem mountCall_cmd (t : Tool) (d : String) :
    (mountCall t d).cmd =
      { Path := (t.LookPath "sudo").getD "sudo",
        Args := sudoArgs ["--remote", "--", "mount", TrimSpace (findfsCall t d).out, "/"],
        Env := sessionEnv t d } := by
  rw [mountCall, execCmd_cmd, genCmd_root]; rfl

theorem uploadCall_cmd (t : Tool) (d f : String) :
    (uploadCall t d f).cmd =
      { Path := (t.LookPath "sudo").getD "sudo",
        Args := sudoArgs ["--remote", "--", "upload", f, "/ignition/config.ign"],
        Env := sessionEnv t d } := by
  rw [uploadCall, execCmd_cmd, genCmd_root]; rfl

theorem umountCall_cmd (t : Tool) (d f : String) :
    (umountCall t d f).cmd =
      { Path := (t.LookPath "sudo").getD "sudo", Args := sudoArgs ["--remote", "--", "umount-all"],
        Env := sessionEnv t d } := by
  rw [umountCall, execCmd_cmd, genCmd_root]; rfl

theorem exitCall_cmd (t : Tool) (d f : String) :
    (exitCall t d f).cmd =
      { Path := (t.LookPath "sudo").getD "sudo", Args := sudoArgs ["--remote", "--", "exit"],
        Env := sessionEnv t d } := by
  rw [exitCall, execCmd_cmd, genCmd_root]; rfl

/-- In a list of calls of which all but the last succeeded, a failed call is
the last one. -/
theorem failed_call_is_last (pre : List Event) (last : Event)
    (hpre : ∀ e ∈ pre, e.err = none) (i : Nat) (e : Event)
    (hi : (pre ++ [last]).get? i = some e) (he : e.err ≠ none) :
    i + 1 = (pre ++ [last]).length ∧ e = last := by
  rw [List.get?_eq_getElem?] at hi
  by_cases hlt : i < pre.length
  · rw [List.getElem?_append_left hlt] at hi
    exact absurd (hpre e (List.getElem?_mem hi)) he
  · have hle : pre.length ≤ i := Nat.le_of_not_lt hlt
    rw [List.getElem?_append_right hle] at hi
    have hz : i - pre.length = 0 := by
      by_contra hne
      obtain ⟨k, hk⟩ := Nat.exists_eq_succ_of_ne_zero hne
      rw [hk] at hi
      simp at hi
    rw [hz] at hi
    simp at hi
    refine ⟨?_, hi.symm⟩
    simp
    omega

theorem inject_panic (t : Tool) (domainDef : Domain) (f : String)
    (hd : firstDiskFile domainDef = none) :
    injectIgnitionByGuestfish t domainDef f = { trace := [], outcome := .panicked } := by
  unfold injectIgnitionByGuestfish
  rw [hd]

theorem isRemote_listenCall (t : Tool) (d verb : String) :
    isRemote verb (listenCall t d) = false := by
  simp [isRemote, listenCall_cmd, sudoArgs]

theorem isRemote_runCall (t : Tool) (d verb : String) :
    isRemote verb (runCall t d) = ("run" == verb) := by
  simp [isRemote, runCall_cmd, sudoArgs]

theorem isRemote_findfsCall (t : Tool) (d verb : String) :
    isRemote verb (findfsCall t d) = ("findfs-label" == verb) := by
  simp [isRemote, findfsCall_cmd, sudoArgs]

theorem isRemote_mountCall (t : Tool) (d verb : String) :
    isRemote verb (mountCall t d) = ("mount" == verb) := by
  simp [isRemote, mountCall_cmd, sudoArgs]

theorem isRemote_uploadCall (t : Tool) (d f verb : String) :
    isRemote verb (uploadCall t d f) = ("upload" == verb) := by
  simp [isRemote, uploadCall_cmd, sudoArgs]

theorem isRemote_umountCall (t : Tool) (d f verb : String) :
    isRemote verb (umountCall t d f) = ("umount-all" == verb) := by
  simp [isRemote, umountCall_cmd, sudoArgs]

theorem isRemote_exitCall (t : Tool) (d f verb : String) :
    isRemote verb (exitCall t d f) = ("exit" == verb) := by
  simp [isRemote, exitCall_cmd, sudoArgs]

theorem issued_in_order (t : Tool) (domainDef : Domain) (d f : String)
    (hd : firstDiskFile domainDef = some d) :
    issuedArgs (injectIgnitionByGuestfish t domainDef f) <+:
      (fixedSequence d f (bootReply (injectIgnitionByGuestfish t domainDef f))).map sudoArgs := by
  generalize hr : injectIgnitionByGuestfish t domainDef f = r
  apply inject_cases t domainDef d f hd r hr
  all_goals intros
  all_goals
    simp [issuedArgs, fixedSequence, bootReply, listenCall_cmd, runCall_cmd, findfsCall_cmd,
      mountCall_cmd, uploadCall_cmd, umountCall_cmd, exitCall_cmd, List.prefix_iff_eq_take]

theorem failure_ends_run (t : Tool) (domainDef : Domain) (d f : String)
    (hd : firstDiskFile domainDef = some d) (i : Nat) (e : Event)
    (hi : (injectIgnitionByGuestfish t domainDef f).trace.get? i = some e)
    (he : e.err ≠ none) :
    i + 1 = (injectIgnitionByGuestfish t domainDef f).trace.length ∧
      (injectIgnitionByGuestfish t domainDef f).outcome = .returned e.err := by
  revert hi
  generalize hr : injectIgnitionByGuestfish t domainDef f = r
  apply inject_cases t domainDef d f hd r hr
  all_goals intros
  all_goals rename_i hi
  all_goals first
    | (have h := failed_call_is_last [] _ (by simp [*]) i e hi he; simp_all)
    | (have h := failed_call_is_last [_] _ (by simp [*]) i e hi he; simp_all)
    | (have h := failed_call_is_last [_, _] _ (by simp [*]) i e hi he; simp_all)
    | (have h := failed_call_is_last [_, _, _] _ (by simp [*]) i e hi he; simp_all)
    | (have h := failed_call_is_last [_, _, _, _] _ (by simp [*]) i e hi he; simp_all)
    | (have h := failed_call_is_last [_, _, _, _, _] _ (by simp [*]) i e hi he; simp_all)
    | (have h := failed_call_is_last [_, _, _, _, _, _] _ (by simp [*]) i e hi he
       simp_all)

theorem returns_after_disk (t : Tool) (domainDef : Domain) (d f : String)
    (hd : firstDiskFile domainDef = some d) :
    ∃ err, (injectIgnitionByGuestfish t domainDef f).outcome = .returned err := by
  generalize hr : injectIgnitionByGuestfish t domainDef f = r
  apply inject_cases t domainDef d f hd r hr
  all_goals intros
  all_goals exact ⟨_, rfl⟩

theorem no_error_iff (t : Tool) (domainDef : Domain) (d f : String)
    (hd : firstDiskFile domainDef = some d) :
    (injectIgnitionByGuestfish t domainDef f).outcome = .returned none ↔
      (injectIgnitionByGuestfish t domainDef f).trace.length = 7 ∧
      ∀ e ∈ (injectIgnitionByGuestfish t domainDef f).trace, e.err = none := by
  generalize hr : injectIgnitionByGuestfish t domainDef f = r
  apply inject_cases t domainDef d f hd r hr
  all_goals intros
  all_goals simp_all

theorem length_zero_iff (s : String) : s.length = 0 ↔ s = "" := by
  constructor
  · intro h
    apply String.ext
    exact List.length_eq_zero.mp h
  · intro h
    rw [h]
    rfl

theorem listenCall_output (t : Tool) (d s : String)
    (hs : t.start (genCmd t.LookPath true none ["--listen", "-a", d]) = .output s) :
    (listenCall t d).out = s ∧ (listenCall t d).err = none := by
  simp [listenCall, startCmd, hs]

theorem calls_are_replies (t : Tool) (domainDef : Domain) (d f : String)
    (hd : firstDiskFile domainDef = some d) (i : Nat) (e : Event) (a : List String)
    (hi : (injectIgnitionByGuestfish t domainDef f).trace.get? i = some e)
    (ha : (fixedSequence d f (bootReply (injectIgnitionByGuestfish t domainDef f))).get? i =
      some a) :
    e = if i = 0 then startCmd t true none a
        else execCmd t ((injectIgnitionByGuestfish t domainDef f).trace.take i) true
          (some [(Split (startupOutput (injectIgnitionByGuestfish t domainDef f)) ';').getD 0 ""])
          a := by
  revert hi ha
  generalize hr : injectIgnitionByGuestfish t domainDef f = r
  apply inject_cases t domainDef d f hd r hr
  all_goals intros
  all_goals rename_i hi ha
  all_goals rcases i with _ | _ | _ | _ | _ | _ | _ | i
  all_goals simp [fixedSequence, bootReply] at hi ha
  all_goals subst hi
  all_goals subst ha
  all_goals simp only [startupOutput, List.get?, List.take, if_true, if_false,
    Nat.succ_ne_zero, Nat.add_one_ne_zero, reduceCtorEq, OfNat.ofNat_ne_zero]
  all_goals first
    | (conv_lhs => rw [listenCall])
    | (conv_lhs => rw [runCall]); rfl
    | (conv_lhs => rw [findfsCall]); rfl
    | (conv_lhs => rw [mountCall]); rfl
    | (conv_lhs => rw [uploadCall]); rfl
    | (conv_lhs => rw [umountCall]); rfl
    | (conv_lhs => rw [exitCall]); rfl

theorem run_without_failure (t : Tool) (domainDef : Domain) (d f : String)
    (hd : firstDiskFile domainDef = some d)
    (hok : ∀ e ∈ (injectIgnitionByGuestfish t domainDef f).trace, e.err = none) :
    ((injectIgnitionByGuestfish t domainDef f).trace.length = 1 ∧ (Split (startupOutput (injectIgnitionByGuestfish t domainDef f)) ';').length ≠ 2 ∧
      (injectIgnitionByGuestfish t domainDef f).outcome = .returned
        (some ("invalid output when starting guestfish: " ++ startupOutput (injectIgnitionByGuestfish t domainDef f)))) ∨
    ((injectIgnitionByGuestfish t domainDef f).trace.length = 1 ∧ (Split (startupOutput (injectIgnitionByGuestfish t domainDef f)) ';').length = 2 ∧
      (Split ((Split (startupOutput (injectIgnitionByGuestfish t domainDef f)) ';').getD 0 "") '=').length ≠ 2 ∧
      (injectIgnitionByGuestfish t domainDef f).outcome = .returned
        (some ("failed to get the guestfish PID from " ++ startupOutput (injectIgnitionByGuestfish t domainDef f)))) ∨
    ((injectIgnitionByGuestfish t domainDef f).trace.length = 3 ∧ (Split (startupOutput (injectIgnitionByGuestfish t domainDef f)) ';').length = 2 ∧
      (Split ((Split (startupOutput (injectIgnitionByGuestfish t domainDef f)) ';').getD 0 "") '=').length = 2 ∧
      bootReply (injectIgnitionByGuestfish t domainDef f) = "" ∧
      (injectIgnitionByGuestfish t domainDef f).outcome = .returned (some "failed to get the boot filesystem")) ∨
    ((injectIgnitionByGuestfish t domainDef f).trace.length = 7 ∧ (Split (startupOutput (injectIgnitionByGuestfish t domainDef f)) ';').length = 2 ∧
      (Split ((Split (startupOutput (injectIgnitionByGuestfish t domainDef f)) ';').getD 0 "") '=').length = 2 ∧
      bootReply (injectIgnitionByGuestfish t domainDef f) ≠ "" ∧
      (injectIgnitionByGuestfish t domainDef f).outcome = .returned none) := by
  revert hok
  generalize hr : injectIgnitionByGuestfish t domainDef f = r
  apply inject_cases t domainDef d f hd r hr
  all_goals intros
  all_goals simp_all [startupOutput, bootReply, length_zero_iff]

/-- C5, refuted as stated: the listener prints a startup line without a
semicolon; the run stops after that one call although the call succeeded, and
the error it returns is not the error of any call. -/
theorem C5_counterexample :
    (injectIgnitionByGuestfish toolNoSemicolon exampleDomain "/tmp/config.ign").trace.length = 1 ∧
    (∀ e ∈ (injectIgnitionByGuestfish toolNoSemicolon exampleDomain "/tmp/config.ign").trace,
      e.err = none) ∧
    (injectIgnitionByGuestfish toolNoSemicolon exampleDomain "/tmp/config.ign").outcome =
      .returned (some "invalid output when starting guestfish: GUESTFISH_PID=4513") := by
  decide

/-- C5, amended: the calls of an injection are a prefix of the fixed sequence
of seven calls (with `b` the trimmed `findfs-label` reply), and each of them is
the tool's reply to that call; a call that fails is the last one issued and its
error is what the injector returns; when no call fails the sequence stops after
the listener call with the parse error of a malformed startup output, or after
the `findfs-label` call with the boot-filesystem error of an empty trimmed
reply, and otherwise all seven calls are issued and no error is returned; the
injector always returns, and returns no error exactly when all seven calls were
issued and succeeded. -/
theorem C5_fail_fast_sequence (t : Tool) (domainDef : Domain) (d f : String)
    (hd : firstDiskFile domainDef = some d) :
    issuedArgs (injectIgnitionByGuestfish t domainDef f) <+: (fixedSequence d f (bootReply (injectIgnitionByGuestfish t domainDef f))).map sudoArgs ∧
    (∀ i e a, (injectIgnitionByGuestfish t domainDef f).trace.get? i = some e →
        (fixedSequence d f (bootReply (injectIgnitionByGuestfish t domainDef f))).get? i = some a →
        e = if i = 0 then startCmd t true none a
            else execCmd t ((injectIgnitionByGuestfish t domainDef f).trace.take i) true
              (some [(Split (startupOutput (injectIgnitionByGuestfish t domainDef f)) ';').getD 0 ""]) a) ∧
    (∀ i e, (injectIgnitionByGuestfish t domainDef f).trace.get? i = some e → e.err ≠ none →
        i + 1 = (injectIgnitionByGuestfish t domainDef f).trace.length ∧ (injectIgnitionByGuestfish t domainDef f).outcome = .returned e.err) ∧
    ((∀ e ∈ (injectIgnitionByGuestfish t domainDef f).trace, e.err = none) →
      ((injectIgnitionByGuestfish t domainDef f).trace.length = 1 ∧ (Split (startupOutput (injectIgnitionByGuestfish t domainDef f)) ';').length ≠ 2 ∧
        (injectIgnitionByGuestfish t domainDef f).outcome = .returned
          (some ("invalid output when starting guestfish: " ++ startupOutput (injectIgnitionByGuestfish t domainDef f)))) ∨
      ((injectIgnitionByGuestfish t domainDef f).trace.length = 1 ∧ (Split (startupOutput (injectIgnitionByGuestfish t domainDef f)) ';').length = 2 ∧
        (Split ((Split (startupOutput (injectIgnitionByGuestfish t domainDef f)) ';').getD 0 "") '=').length ≠ 2 ∧
        (injectIgnitionByGuestfish t domainDef f).outcome = .returned
          (some ("failed to get the guestfish PID from " ++ startupOutput (injectIgnitionByGuestfish t domainDef f)))) ∨
      ((injectIgnitionByGuestfish t domainDef f).trace.length = 3 ∧ (Split (startupOutput (injectIgnitionByGuestfish t domainDef f)) ';').length = 2 ∧
        (Split ((Split (startupOutput (injectIgnitionByGuestfish t domainDef f)) ';').getD 0 "") '=').length = 2 ∧
        bootReply (injectIgnitionByGuestfish t domainDef f) = "" ∧
        (injectIgnitionByGuestfish t domainDef f).outcome = .returned (some "failed to get the boot filesystem")) ∨
      ((injectIgnitionByGuestfish t domainDef f).trace.length = 7 ∧ (Split (startupOutput (injectIgnitionByGuestfish t domainDef f)) ';').length = 2 ∧
        (Split ((Split (startupOutput (injectIgnitionByGuestfish t domainDef f)) ';').getD 0 "") '=').length = 2 ∧
        bootReply (injectIgnitionByGuestfish t domainDef f) ≠ "" ∧
        (injectIgnitionByGuestfish t domainDef f).outcome = .returned none)) ∧
    (∃ err, (injectIgnitionByGuestfish t domainDef f).outcome = .returned err) ∧
    ((injectIgnitionByGuestfish t domainDef f).outcome = .returned none ↔
        (injectIgnitionByGuestfish t domainDef f).trace.length = 7 ∧ ∀ e ∈ (injectIgnitionByGuestfish t domainDef f).trace, e.err = none) :=
  ⟨issued_in_order t domainDef d f hd,
   fun i e a hi ha => calls_are_replies t domainDef d f hd i e a hi ha,
   fun i e hi he => failure_ends_run t domainDef d f hd i e hi he,
   fun hok => run_without_failure t domainDef d f hd hok,
   returns_after_disk t domainDef d f hd,
   no_error_iff t domainDef d f hd⟩

theorem C5_fail_fast_sequence_witness :
    firstDiskFile exampleDomain = some "/var/lib/libvirt/images/worker.qcow2" ∧
    issuedArgs (injectIgnitionByGuestfish toolMountFails exampleDomain "/tmp/config.ign") <+:
      (fixedSequence "/var/lib/libvirt/images/worker.qcow2" "/tmp/config.ign"
        (bootReply (injectIgnitionByGuestfish toolMountFails exampleDomain
          "/tmp/config.ign"))).map sudoArgs :=
  ⟨by decide,
   (C5_fail_fast_sequence toolMountFails exampleDomain "/var/lib/libvirt/images/worker.qcow2"
      "/tmp/config.ign" (by decide)).1⟩

/-- C6: the exit command is issued only after the mount command and, after
that, an umount-all command that succeeded. -/
theorem C6_exit_after_umount (t : Tool) (domainDef : Domain) (f : String) (i : Nat) (x : Event)
    (hi : (injectIgnitionByGuestfish t domainDef f).trace.get? i = some x)
    (hx : isRemote "exit" x = true) :
    ∃ j k m u, j < k ∧ k < i ∧
      (injectIgnitionByGuestfish t domainDef f).trace.get? j = some m ∧
      isRemote "mount" m = true ∧ m.err = none ∧
      (injectIgnitionByGuestfish t domainDef f).trace.get? k = some u ∧
      isRemote "umount-all" u = true ∧ u.err = none := by
  cases hd : firstDiskFile domainDef with
  | none => rw [inject_panic t domainDef f hd] at hi; simp at hi
  | some d =>
    revert hi
    generalize hr : injectIgnitionByGuestfish t domainDef f = r
    apply inject_cases t domainDef d f hd r hr
    all_goals intros
    all_goals rename_i hi
    all_goals rcases i with _ | _ | _ | _ | _ | _ | _ | i
    all_goals simp at hi
    all_goals subst hi
    all_goals simp [isRemote_listenCall, isRemote_runCall, isRemote_findfsCall,
      isRemote_mountCall, isRemote_uploadCall, isRemote_umountCall, isRemote_exitCall] at hx
    all_goals
      exact ⟨3, 5, mountCall t d, umountCall t d f, by omega, by omega, rfl,
        by simp [isRemote_mountCall], by assumption, rfl, by simp [isRemote_umountCall],
        by assumption⟩

theorem C6_exit_after_umount_witness :
    ((injectIgnitionByGuestfish toolAllSucceed exampleDomain "/tmp/config.ign").trace.get? 6 =
        some exampleExitEvent ∧ isRemote "exit" exampleExitEvent = true) ∧
    ∃ j k m u, j < k ∧ k < 6 ∧
      (injectIgnitionByGuestfish toolAllSucceed exampleDomain "/tmp/config.ign").trace.get? j =
        some m ∧
      isRemote "mount" m = true ∧ m.err = none ∧
      (injectIgnitionByGuestfish toolAllSucceed exampleDomain "/tmp/config.ign").trace.get? k =
        some u ∧
      isRemote "umount-all" u = true ∧ u.err = none :=
  ⟨⟨by decide, by decide⟩,
   C6_exit_after_umount toolAllSucceed exampleDomain "/tmp/config.ign" 6 exampleExitEvent
     (by decide) (by decide)⟩

/-- C1, refuted as stated: when the mount command exits non-zero the injector
has issued the mount command and returns without issuing umount-all or exit. -/
theorem C1_counterexample :
    (injectIgnitionByGuestfish toolMountFails exampleDomain "/tmp/config.ign").trace.any
        (isRemote "mount") = true ∧
    (injectIgnitionByGuestfish toolMountFails exampleDomain "/tmp/config.ign").trace.any
        (isRemote "umount-all") = false ∧
    (injectIgnitionByGuestfish toolMountFails exampleDomain "/tmp/config.ign").trace.any
        (isRemote "exit") = false ∧
    (injectIgnitionByGuestfish toolMountFails exampleDomain "/tmp/config.ign").outcome =
      .returned (some ("error running command " ++
        "'sudo --preserve-env guestfish --remote -- mount /dev/sda1 /': exit status 1")) := by
  decide

/-- C1, amended: in a run that issues the mount command, a failing mount or
upload command ends the run with that command's error and neither umount-all
nor exit is issued; when mount and upload both succeed, umount-all is the next
call, followed by exit when it succeeds, and its error is returned when it
fails. -/
theorem C1_cleanup_on_success_only (t : Tool) (domainDef : Domain) (f : String)
    (hm : (injectIgnitionByGuestfish t domainDef f).trace.any (isRemote "mount") = true) :
    (∀ e ∈ (injectIgnitionByGuestfish t domainDef f).trace,
        (isRemote "mount" e || isRemote "upload" e) = true → e.err ≠ none →
        (injectIgnitionByGuestfish t domainDef f).outcome = .returned e.err ∧
        (injectIgnitionByGuestfish t domainDef f).trace.any (isRemote "umount-all") = false ∧
        (injectIgnitionByGuestfish t domainDef f).trace.any (isRemote "exit") = false) ∧
    ((∀ e ∈ (injectIgnitionByGuestfish t domainDef f).trace,
        (isRemote "mount" e || isRemote "upload" e) = true → e.err = none) →
      ∃ m p u,
        (injectIgnitionByGuestfish t domainDef f).trace.get? 3 = some m ∧
        isRemote "mount" m = true ∧
        (injectIgnitionByGuestfish t domainDef f).trace.get? 4 = some p ∧
        isRemote "upload" p = true ∧
        (injectIgnitionByGuestfish t domainDef f).trace.get? 5 = some u ∧
        isRemote "umount-all" u = true ∧
        (u.err = none →
          ∃ x, (injectIgnitionByGuestfish t domainDef f).trace.get? 6 = some x ∧
            isRemote "exit" x = true ∧
            (injectIgnitionByGuestfish t domainDef f).outcome = .returned x.err) ∧
        (u.err ≠ none →
          (injectIgnitionByGuestfish t domainDef f).trace.length = 6 ∧
          (injectIgnitionByGuestfish t domainDef f).outcome = .returned u.err)) := by
  cases hd : firstDiskFile domainDef with
  | none => rw [inject_panic t domainDef f hd] at hm; simp at hm
  | some d =>
    revert hm
    generalize hr : injectIgnitionByGuestfish t domainDef f = r
    apply inject_cases t domainDef d f hd r hr
    all_goals intros
    all_goals simp_all [isRemote_listenCall, isRemote_runCall, isRemote_findfsCall,
      isRemote_mountCall, isRemote_uploadCall, isRemote_umountCall, isRemote_exitCall]

theorem C1_cleanup_on_success_only_witness :
    (injectIgnitionByGuestfish toolMountFails exampleDomain "/tmp/config.ign").trace.any
        (isRemote "mount") = true ∧
    ∀ e ∈ (injectIgnitionByGuestfish toolMountFails exampleDomain "/tmp/config.ign").trace,
      (isRemote "mount" e || isRemote "upload" e) = true → e.err ≠ none →
      (injectIgnitionByGuestfish toolMountFails exampleDomain "/tmp/config.ign").outcome =
        .returned e.err ∧
      (injectIgnitionByGuestfish toolMountFails exampleDomain "/tmp/config.ign").trace.any
        (isRemote "umount-all") = false ∧
      (injectIgnitionByGuestfish toolMountFails exampleDomain "/tmp/config.ign").trace.any
        (isRemote "exit") = false :=
  ⟨by decide,
   (C1_cleanup_on_success_only toolMountFails exampleDomain "/tmp/config.ign" (by decide)).1⟩

/-- C2: when the listener's startup output `s` splits on `;` into two segments
and the first of them splits on `=` into two, the run call is issued and every
call after the listener call carries exactly one environment entry, the first
segment of `s`; for `GUESTFISH_PID=4513; export GUESTFISH_PID` that entry is
`GUESTFISH_PID=4513`. -/
theorem C2_session_environment (t : Tool) (domainDef : Domain) (d f s : String)
    (hd : firstDiskFile domainDef = some d)
    (hs : t.start (genCmd t.LookPath true none ["--listen", "-a", d]) = .output s)
    (h1 : (Split s ';').length = 2)
    (h2 : (Split ((Split s ';').getD 0 "") '=').length = 2) :
    (∃ e, (injectIgnitionByGuestfish t domainDef f).trace.get? 1 = some e ∧
      isRemote "run" e = true) ∧
    (∀ i e, (injectIgnitionByGuestfish t domainDef f).trace.get? (i + 1) = some e →
      e.cmd.Env = some [(Split s ';').getD 0 ""]) ∧
    (Split "GUESTFISH_PID=4513; export GUESTFISH_PID" ';').getD 0 "" = "GUESTFISH_PID=4513" := by
  obtain ⟨ho, he⟩ := listenCall_output t d s hs
  have henv : sessionEnv t d = some [(Split s ';').getD 0 ""] := by
    rw [sessionEnv, ho]
  rw [← ho] at h1 h2
  refine ⟨?_, ?_, by decide⟩
  · generalize hr : injectIgnitionByGuestfish t domainDef f = r
    apply inject_cases t domainDef d f hd r hr
    all_goals intros
    all_goals first
      | contradiction
      | simp [isRemote_runCall]
  · intro i e
    rw [← henv]
    generalize hr : injectIgnitionByGuestfish t domainDef f = r
    apply inject_cases t domainDef d f hd r hr
    all_goals intros
    all_goals rename_i hi
    all_goals rcases i with _ | _ | _ | _ | _ | _ | i
    all_goals simp at hi
    all_goals subst hi
    all_goals simp [runCall_cmd, findfsCall_cmd, mountCall_cmd, uploadCall_cmd,
      umountCall_cmd, exitCall_cmd]

theorem C2_session_environment_witness :
    (firstDiskFile exampleDomain = some "/var/lib/libvirt/images/worker.qcow2" ∧
      toolAllSucceed.start
          (genCmd toolAllSucceed.LookPath true none
            ["--listen", "-a", "/var/lib/libvirt/images/worker.qcow2"]) =
        .output "GUESTFISH_PID=4513; export GUESTFISH_PID" ∧
      (Split "GUESTFISH_PID=4513; export GUESTFISH_PID" ';').length = 2 ∧
      (Split ((Split "GUESTFISH_PID=4513; export GUESTFISH_PID" ';').getD 0 "") '=').length = 2) ∧
    ∃ e, (injectIgnitionByGuestfish toolAllSucceed exampleDomain "/tmp/config.ign").trace.get? 1 =
        some e ∧ isRemote "run" e = true :=
  ⟨⟨by decide, by decide, by decide, by decide⟩,
   (C2_session_environment toolAllSucceed exampleDomain "/var/lib/libvirt/images/worker.qcow2"
      "/tmp/config.ign" "GUESTFISH_PID=4513; export GUESTFISH_PID"
      (by decide) (by decide) (by decide) (by decide)).1⟩

/-- C3: when the listener's startup output `s` does not split on `;` into
exactly two segments the injector fails with `invalid output when starting
guestfish: s`; otherwise, when its first segment does not split on `=` into
exactly two segments, it fails with `failed to get the guestfish PID from s`;
in both cases the listener call, which carries no environment, is the only call
made. -/
theorem C3_malformed_startup_output (t : Tool) (domainDef : Domain) (d f s : String)
    (hd : firstDiskFile domainDef = some d)
    (hs : t.start (genCmd t.LookPath true none ["--listen", "-a", d]) = .output s) :
    ((Split s ';').length ≠ 2 →
      (injectIgnitionByGuestfish t domainDef f).outcome =
        .returned (some ("invalid output when starting guestfish: " ++ s))) ∧
    ((Split s ';').length = 2 → (Split ((Split s ';').getD 0 "") '=').length ≠ 2 →
      (injectIgnitionByGuestfish t domainDef f).outcome =
        .returned (some ("failed to get the guestfish PID from " ++ s))) ∧
    (((Split s ';').length ≠ 2 ∨ (Split ((Split s ';').getD 0 "") '=').length ≠ 2) →
      issuedArgs (injectIgnitionByGuestfish t domainDef f) = [sudoArgs ["--listen", "-a", d]] ∧
      (∀ e ∈ (injectIgnitionByGuestfish t domainDef f).trace, e.cmd.Env = none) ∧
      ∀ verb, (injectIgnitionByGuestfish t domainDef f).trace.any (isRemote verb) = false) := by
  obtain ⟨ho, he⟩ := listenCall_output t d s hs
  rw [← ho]
  generalize hr : injectIgnitionByGuestfish t domainDef f = r
  apply inject_cases t domainDef d f hd r hr
  all_goals intros
  all_goals first
    | contradiction
    | (refine ⟨?_, ?_, ?_⟩ <;>
        simp_all [issuedArgs, listenCall_cmd, isRemote_listenCall])

theorem C3_malformed_startup_output_witness :
    (firstDiskFile exampleDomain = some "/var/lib/libvirt/images/worker.qcow2" ∧
      toolNoSemicolon.start
          (genCmd toolNoSemicolon.LookPath true none
            ["--listen", "-a", "/var/lib/libvirt/images/worker.qcow2"]) =
        .output "GUESTFISH_PID=4513" ∧
      (Split "GUESTFISH_PID=4513" ';').length ≠ 2) ∧
    (injectIgnitionByGuestfish toolNoSemicolon exampleDomain "/tmp/config.ign").outcome =
      .returned (some ("invalid output when starting guestfish: " ++ "GUESTFISH_PID=4513")) :=
  ⟨⟨by decide, by decide, by decide⟩,
   (C3_malformed_startup_output toolNoSemicolon exampleDomain
      "/var/lib/libvirt/images/worker.qcow2" "/tmp/config.ign" "GUESTFISH_PID=4513"
      (by decide) (by decide)).1 (by decide)⟩

/-- C4: when the third call of a run (the `findfs-label boot` call, reached
only after the listener and the run call succeeded) succeeds with a reply that
is empty after trimming white space, the injector returns `failed to get the
boot filesystem` and that call is the last: no mount, upload, umount-all or exit
command is issued. -/
theorem C4_empty_boot_filesystem (t : Tool) (domainDef : Domain) (f : String) (e3 : Event)
    (h3 : (injectIgnitionByGuestfish t domainDef f).trace.get? 2 = some e3)
    (herr : e3.err = none) (hempty : TrimSpace e3.out = "") :
    (injectIgnitionByGuestfish t domainDef f).outcome =
      .returned (some "failed to get the boot filesystem") ∧
    isRemote "findfs-label" e3 = true ∧
    (injectIgnitionByGuestfish t domainDef f).trace.length = 3 ∧
    (∀ e ∈ (injectIgnitionByGuestfish t domainDef f).trace, e.err = none) ∧
    (injectIgnitionByGuestfish t domainDef f).trace.any (isRemote "mount") = false ∧
    (injectIgnitionByGuestfish t domainDef f).trace.any (isRemote "upload") = false ∧
    (injectIgnitionByGuestfish t domainDef f).trace.any (isRemote "umount-all") = false ∧
    (injectIgnitionByGuestfish t domainDef f).trace.any (isRemote "exit") = false := by
  cases hd : firstDiskFile domainDef with
  | none => rw [inject_panic t domainDef f hd] at h3; simp at h3
  | some d =>
    revert h3
    generalize hr : injectIgnitionByGuestfish t domainDef f = r
    apply inject_cases t domainDef d f hd r hr
    all_goals intros
    all_goals rename_i h3
    all_goals simp at h3
    all_goals subst h3
    all_goals simp_all [isRemote_listenCall, isRemote_runCall, isRemote_findfsCall,
      length_zero_iff]

theorem C4_empty_boot_filesystem_witness :
    ((injectIgnitionByGuestfish toolBlankBoot exampleDomain "/tmp/config.ign").trace.get? 2 =
        some exampleBlankFindfsEvent ∧
      exampleBlankFindfsEvent.err = none ∧ TrimSpace exampleBlankFindfsEvent.out = "") ∧
    (injectIgnitionByGuestfish toolBlankBoot exampleDomain "/tmp/config.ign").outcome =
      .returned (some "failed to get the boot filesystem") :=
  ⟨⟨by decide, by decide, by decide⟩,
   (C4_empty_boot_filesystem toolBlankBoot exampleDomain "/tmp/config.ign"
      exampleBlankFindfsEvent (by decide) (by decide) (by decide)).1⟩

/-- C7: as root `genCmd` builds the command for the executable `sudo` with the
arguments `--preserve-env guestfish` followed by `args`; otherwise the command
for the executable `guestfish` with the arguments `args`. The executable is
named in `Args[0]`, and `Path` is where the launcher finds it (the bare name
when it finds none). The environment of the command is `env` when `env` is not
empty and is left nil when `env` is nil or empty. -/
theorem C7_genCmd (lookPath : String → Option String) (env : Option (List String))
    (args : List String) :
    (genCmd lookPath true env args).Args =
      "sudo" :: (["--preserve-env", "guestfish"] ++ args) ∧
    (genCmd lookPath true env args).Path =
      (execCommand lookPath "sudo" (["--preserve-env", "guestfish"] ++ args)).Path ∧
    (genCmd lookPath true env args).Path = (lookPath "sudo").getD "sudo" ∧
    (genCmd lookPath false env args).Args = "guestfish" :: args ∧
    (genCmd lookPath false env args).Path = (execCommand lookPath "guestfish" args).Path ∧
    (genCmd lookPath false env args).Path = (lookPath "guestfish").getD "guestfish" ∧
    (∀ b e, env = some e → e ≠ [] → (genCmd lookPath b env args).Env = some e) ∧
    (∀ b, env = none ∨ env = some [] → (genCmd lookPath b env args).Env = none) := by
  refine ⟨by rw [genCmd_root]; rfl, ?_, by rw [genCmd_root], by rw [genCmd_plain], ?_,
    by rw [genCmd_plain], ?_, ?_⟩
  · rw [genCmd_root]
    cases hl : lookPath "sudo" <;> simp [execCommand, Base_sudo, hl]
  · rw [genCmd_plain]
    cases hl : lookPath "guestfish" <;> simp [execCommand, Base_guestfish, hl]
  · intro b e he hne
    subst he
    cases e with
    | nil => exact absurd rfl hne
    | cons x xs => cases b <;> simp [genCmd_root, genCmd_plain, envOf]
  · intro b he
    rcases he with he | he <;> subst he <;> cases b <;> simp [genCmd_root, genCmd_plain, envOf]

theorem C7_genCmd_witness :
    ((some ["GUESTFISH_PID=4513"] : Option (List String)) = some ["GUESTFISH_PID=4513"] ∧
      ["GUESTFISH_PID=4513"] ≠ []) ∧
    (genCmd toolAllSucceed.LookPath true (some ["GUESTFISH_PID=4513"])
        ["--remote", "--", "run"]).Env = some ["GUESTFISH_PID=4513"] :=
  ⟨⟨rfl, by decide⟩,
   (C7_genCmd toolAllSucceed.LookPath (some ["GUESTFISH_PID=4513"])
      ["--remote", "--", "run"]).2.2.2.2.2.2.1 true ["GUESTFISH_PID=4513"] rfl (by decide)⟩

/-- C8: when the key lookup gives a volume whose path is `p`,
`newDiskForConfigDrive` returns no error and a disk with device `cdrom`, target
bus `scsi`, target device `vdb`, driver `qemu` of type `raw` and source file
`p`; when the lookup or the path resolution fails it returns an error. -/
theorem C8_newDiskForConfigDrive (virConn : Connect) (volumeKey : String) :
    (∀ vol p, virConn.LookupStorageVolByKey volumeKey = .ok vol → vol.GetPath = .ok p →
      newDiskForConfigDrive virConn volumeKey =
        ({ Device := "cdrom"
           Target := some { Dev := "vdb", Bus := "scsi" }
           Driver := some { Name := "qemu", Type_ := "raw" }
           Source := some { File := some { File := p } } }, none)) ∧
    (∀ err, virConn.LookupStorageVolByKey volumeKey = .error err →
      (newDiskForConfigDrive virConn volumeKey).2 =
        some ("Can't retrieve volume " ++ volumeKey ++ ": " ++ err)) ∧
    (∀ vol err, virConn.LookupStorageVolByKey volumeKey = .ok vol → vol.GetPath = .error err →
      (newDiskForConfigDrive virConn volumeKey).2 =
        some ("Error retrieving volume file: " ++ err)) := by
  refine ⟨?_, ?_, ?_⟩
  · intro vol p h1 h2
    simp [newDiskForConfigDrive, h1, h2]
  · intro err h1
    simp [newDiskForConfigDrive, h1]
  · intro vol err h1 h2
    simp [newDiskForConfigDrive, h1, h2]

theorem C8_newDiskForConfigDrive_witness :
    (exampleBackend.LookupStorageVolByKey "key-123" = .ok { GetPath := .ok "/var/lib/pool/vol.iso" } ∧
      (StorageVol.mk (.ok "/var/lib/pool/vol.iso")).GetPath = .ok "/var/lib/pool/vol.iso") ∧
    newDiskForConfigDrive exampleBackend "key-123" =
      ({ Device := "cdrom"
         Target := some { Dev := "vdb", Bus := "scsi" }
         Driver := some { Name := "qemu", Type_ := "raw" }
         Source := some { File := some { File := "/var/lib/pool/vol.iso" } } }, none) :=
  ⟨⟨rfl, rfl⟩,
   (C8_newDiskForConfigDrive exampleBackend "key-123").1 _ _ rfl rfl⟩

/-- C10, refuted as stated: the ISO-authoring tool exits non-zero after
printing a message; the build returns the empty path and an error message that
does not contain what the tool printed. -/
theorem C10_counterexample :
    (hostIsoToolFails.Run (genisoimageCmd hostIsoToolFails.LookPath "/tmp/ignition-tmp")).err = some "exit status 1" ∧
    (hostIsoToolFails.Run (genisoimageCmd hostIsoToolFails.LookPath "/tmp/ignition-tmp")).output =
      "genisoimage: permission denied\n" ∧
    createIgnitionISO hostIsoToolFails "worker-0.ign" "/tmp/ignition-tmp" =
      ("", some "Error while starting the creation of ignition's ISO image: exit status 1") ∧
    ¬ ("genisoimage: permission denied\n".data <:+:
        "Error while starting the creation of ignition's ISO image: exit status 1".data) := by
  refine ⟨rfl, rfl, by decide, ?_⟩
  intro h
  have hp : 'p' ∈ "Error while starting the creation of ignition's ISO image: exit status 1".data :=
    h.subset (by decide)
  revert hp
  decide

/-- C10, amended: when the staging steps succeed and running the
ISO-authoring tool fails with the error `err`, `createIgnitionISO` returns the
empty path and the message `Error while starting the creation of ignition's ISO
image: ` followed by `err`; what the tool printed plays no part in the result. -/
theorem C10_iso_tool_failure (h : Host) (ignName ignPath err : String)
    (hmk : h.MkdirAll "/tmp/new-drive/openstack/latest" = none)
    (hopen : h.Open ignPath = none)
    (hcreate : h.Create "/tmp/new-drive/openstack/latest/user_data" = none)
    (hcopy : h.Copy "/tmp/new-drive/openstack/latest/user_data" ignPath = none)
    (hrun : (h.Run (genisoimageCmd h.LookPath ignPath)).err = some err) :
    createIgnitionISO h ignName ignPath =
      ("", some ("Error while starting the creation of ignition's ISO image: " ++ err)) ∧
    ∀ printed : Cmd → String,
      createIgnitionISO
          { h with Run := fun c => { output := printed c, err := (h.Run c).err } }
          ignName ignPath =
        createIgnitionISO h ignName ignPath := by
  rw [genisoimageCmd] at hrun
  refine ⟨by simp [createIgnitionISO, hmk, hopen, hcreate, hcopy, hrun], ?_⟩
  intro printed
  simp [createIgnitionISO]

theorem C10_iso_tool_failure_witness :
    (hostIsoToolFails.MkdirAll "/tmp/new-drive/openstack/latest" = none ∧
      hostIsoToolFails.Open "/tmp/ignition-tmp" = none ∧
      hostIsoToolFails.Create "/tmp/new-drive/openstack/latest/user_data" = none ∧
      hostIsoToolFails.Copy "/tmp/new-drive/openstack/latest/user_data" "/tmp/ignition-tmp" =
        none ∧
      (hostIsoToolFails.Run (genisoimageCmd hostIsoToolFails.LookPath "/tmp/ignition-tmp")).err = some "exit status 1") ∧
    createIgnitionISO hostIsoToolFails "worker-0.ign" "/tmp/ignition-tmp" =
      ("", some ("Error while starting the creation of ignition's ISO image: " ++
        "exit status 1")) :=
  ⟨⟨rfl, rfl, rfl, rfl, rfl⟩,
   (C10_iso_tool_failure hostIsoToolFails "worker-0.ign" "/tmp/ignition-tmp" "exit status 1"
      rfl rfl rfl rfl rfl).1⟩

theorem setIgnition_frame (h : Host) (domainDef : Domain) (client : libvirtClient)
    (ignition : Ignition) (kubeClient : KubeClient) (machineNamespace volumeName : String) :
    ((setIgnitionForS390X h domainDef client ignition kubeClient machineNamespace
        volumeName).2 ≠ .returned none →
      (setIgnitionForS390X h domainDef client ignition kubeClient machineNamespace
        volumeName).1 = domainDef) ∧
    ((setIgnitionForS390X h domainDef client ignition kubeClient machineNamespace
        volumeName).2 = .returned none →
      ∃ devices disk, domainDef.Devices = some devices ∧ disk.Device = "cdrom" ∧
        (setIgnitionForS390X h domainDef client ignition kubeClient machineNamespace
          volumeName).1.Devices = some { Disks := devices.Disks ++ [disk] }) := by
  unfold setIgnitionForS390X
  simp only []
  split
  · simp
  · split
    · simp
    · split
      · simp
      · split
        · simp
        · rename_i key hkey
          split
          · simp
          · rename_i disk hdisk
            split
            · simp
            · rename_i devices hdev
              refine ⟨by simp, fun _ => ⟨devices, disk, hdev, ?_, rfl⟩⟩
              revert hdisk
              unfold newDiskForConfigDrive
              simp only []
              split
              · simp
              · split
                · simp
                · intro hh
                  simp at hh
                  rw [← hh]

theorem setIgnition_errors (h : Host) (domainDef : Domain) (client : libvirtClient)
    (ignition : Ignition) (kubeClient : KubeClient) (machineNamespace volumeName : String) :
    (ignition.UserDataSecret = "" →
      (setIgnitionForS390X h domainDef client ignition kubeClient machineNamespace
        volumeName).2 = .returned (some "ignition.userDataSecret not set")) ∧
    (ignition.UserDataSecret ≠ "" → ∀ e,
      kubeClient.GetSecret machineNamespace ignition.UserDataSecret = .error e →
      ∃ msg, (setIgnitionForS390X h domainDef client ignition kubeClient machineNamespace
        volumeName).2 = .returned (some msg)) ∧
    (ignition.UserDataSecret ≠ "" → ∀ secret,
      kubeClient.GetSecret machineNamespace ignition.UserDataSecret = .ok secret →
      secret.Data "userData" = none →
      ∃ msg, (setIgnitionForS390X h domainDef client ignition kubeClient machineNamespace
        volumeName).2 = .returned (some msg)) ∧
    (ignition.UserDataSecret ≠ "" → ∀ secret data key e,
      kubeClient.GetSecret machineNamespace ignition.UserDataSecret = .ok secret →
      secret.Data "userData" = some data →
      createAndUploadIso h
          { h.newIgnitionDef with
            Name := volumeName, PoolName := client.poolName, Content := data } client =
        (key, some e) →
      (setIgnitionForS390X h domainDef client ignition kubeClient machineNamespace
        volumeName).2 = .returned (some ("Error create and upload iso file: " ++ e))) ∧
    (ignition.UserDataSecret ≠ "" → ∀ secret data key disk e,
      kubeClient.GetSecret machineNamespace ignition.UserDataSecret = .ok secret →
      secret.Data "userData" = some data →
      createAndUploadIso h
          { h.newIgnitionDef with
            Name := volumeName, PoolName := client.poolName, Content := data } client =
        (key, none) →
      newDiskForConfigDrive client.connection key = (disk, some e) →
      (setIgnitionForS390X h domainDef client ignition kubeClient machineNamespace
        volumeName).2 = .returned (some e)) := by
  refine ⟨?_, ?_, ?_, ?_, ?_⟩
  · intro h0
    simp [setIgnitionForS390X, h0]
  · intro h0 e h1
    simp [setIgnitionForS390X, h0, h1]
  · intro h0 secret h1 h2
    simp [setIgnitionForS390X, h0, h1, h2]
  · intro h0 secret data key e h1 h2 h3
    simp [setIgnitionForS390X, h0, h1, h2, h3]
  · intro h0 secret data key disk e h1 h2 h3 h4
    simp [setIgnitionForS390X, h0, h1, h2, h3, h4]

/-- C9: `setIgnitionForS390X` leaves the domain description as it was unless
it returns no error; when it returns no error the disk list is the previous
list with one `cdrom` disk appended at the end; an empty secret name, a missing
secret, a missing key `userData`, a failed image build or upload and a failed
volume lookup each make it return an error; two successful calls in a row
append two disks. -/
theorem C9_disk_list_frame (h h2 : Host) (domainDef : Domain) (client client2 : libvirtClient)
    (ignition ignition2 : Ignition) (kubeClient kubeClient2 : KubeClient)
    (machineNamespace volumeName machineNamespace2 volumeName2 : String) :
    ((setIgnitionForS390X h domainDef client ignition kubeClient machineNamespace volumeName).2 ≠ .returned none → (setIgnitionForS390X h domainDef client ignition kubeClient machineNamespace volumeName).1 = domainDef) ∧
    ((setIgnitionForS390X h domainDef client ignition kubeClient machineNamespace volumeName).2 = .returned none →
      ∃ devices disk, domainDef.Devices = some devices ∧ disk.Device = "cdrom" ∧
        (setIgnitionForS390X h domainDef client ignition kubeClient machineNamespace volumeName).1.Devices = some { Disks := devices.Disks ++ [disk] }) ∧
    ((setIgnitionForS390X h domainDef client ignition kubeClient machineNamespace volumeName).2 = .returned none →
      (setIgnitionForS390X h2 (setIgnitionForS390X h domainDef client ignition kubeClient machineNamespace volumeName).1 client2 ignition2 kubeClient2 machineNamespace2
        volumeName2).2 = .returned none →
      ∃ devices disk disk2, domainDef.Devices = some devices ∧
        (setIgnitionForS390X h2 (setIgnitionForS390X h domainDef client ignition kubeClient machineNamespace volumeName).1 client2 ignition2 kubeClient2 machineNamespace2
          volumeName2).1.Devices = some { Disks := devices.Disks ++ [disk, disk2] }) ∧
    (ignition.UserDataSecret = "" →
      (setIgnitionForS390X h domainDef client ignition kubeClient machineNamespace volumeName).2 = .returned (some "ignition.userDataSecret not set")) ∧
    (ignition.UserDataSecret ≠ "" → ∀ e,
      kubeClient.GetSecret machineNamespace ignition.UserDataSecret = .error e →
      ∃ msg, (setIgnitionForS390X h domainDef client ignition kubeClient machineNamespace volumeName).2 = .returned (some msg)) ∧
    (ignition.UserDataSecret ≠ "" → ∀ secret,
      kubeClient.GetSecret machineNamespace ignition.UserDataSecret = .ok secret →
      secret.Data "userData" = none →
      ∃ msg, (setIgnitionForS390X h domainDef client ignition kubeClient machineNamespace volumeName).2 = .returned (some msg)) ∧
    (ignition.UserDataSecret ≠ "" → ∀ secret data key e,
      kubeClient.GetSecret machineNamespace ignition.UserDataSecret = .ok secret →
      secret.Data "userData" = some data →
      createAndUploadIso h
          { h.newIgnitionDef with
            Name := volumeName, PoolName := client.poolName, Content := data } client =
        (key, some e) →
      (setIgnitionForS390X h domainDef client ignition kubeClient machineNamespace volumeName).2 = .returned (some ("Error create and upload iso file: " ++ e))) ∧
    (ignition.UserDataSecret ≠ "" → ∀ secret data key disk e,
      kubeClient.GetSecret machineNamespace ignition.UserDataSecret = .ok secret →
      secret.Data "userData" = some data →
      createAndUploadIso h
          { h.newIgnitionDef with
            Name := volumeName, PoolName := client.poolName, Content := data } client =
        (key, none) →
      newDiskForConfigDrive client.connection key = (disk, some e) →
      (setIgnitionForS390X h domainDef client ignition kubeClient machineNamespace volumeName).2 = .returned (some e)) := by
  have hf := setIgnition_frame h domainDef client ignition kubeClient machineNamespace volumeName
  refine ⟨hf.1, hf.2, ?_,
    setIgnition_errors h domainDef client ignition kubeClient machineNamespace volumeName⟩
  intro h1 h2'
  obtain ⟨devices, disk, hdev, -, hfirst⟩ := hf.2 h1
  obtain ⟨devices2, disk2, hdev2, -, hsecond⟩ :=
    (setIgnition_frame h2 _ client2 ignition2 kubeClient2 machineNamespace2 volumeName2).2 h2'
  rw [hfirst] at hdev2
  cases hdev2
  exact ⟨devices, disk, disk2, hdev, by simpa using hsecond⟩

theorem C9_disk_list_frame_witness :
    (setIgnitionForS390X exampleHost exampleDomain exampleClient { UserDataSecret := "worker-user-data" }
        exampleKubeClient "openshift-machine-api" "worker-0.ign").2 = .returned none ∧
    ∃ devices disk, exampleDomain.Devices = some devices ∧ disk.Device = "cdrom" ∧
      (setIgnitionForS390X exampleHost exampleDomain exampleClient
          { UserDataSecret := "worker-user-data" } exampleKubeClient "openshift-machine-api"
          "worker-0.ign").1.Devices = some { Disks := devices.Disks ++ [disk] } :=
  ⟨by decide,
   (C9_disk_list_frame exampleHost exampleHost exampleDomain exampleClient exampleClient
      { UserDataSecret := "worker-user-data" } { UserDataSecret := "worker-user-data" }
      exampleKubeClient exampleKubeClient "openshift-machine-api" "worker-0.ign"
      "openshift-machine-api" "worker-0.ign").2.1 (by decide)⟩

end S390Ignition
